import Mathlib

set_option maxRecDepth 16000

/-!
# Formulaic — verification of the form rendering pipeline

A shallow embedding of the `formulaic` form-generation library
(`trunk/formulaic/`): the widget renderer variants
(`basicwidgets/widgetclasses.py`, `htmlwidgets/widgetclasses.py`), the widget
transformer factories (`basicwidgets/__init__.py`, `htmlwidgets/__init__.py`)
and the form containers (`forms.py`).

Modelling conventions:
* Python strings are `String` (logically `List Char`); a nullable value is an
  `Option String` (`none` = Python `None`).
* Python dicts used as attribute maps are association lists in insertion
  order; `dictSet` models item assignment (replace in place or append) and
  `dictUpdate` models `dict.update`.
* Mutation of an attribute slot of a heap object (attaching a renderer to a
  validator) is modelled by explicit heaps `List VObj` with addresses as
  indices; mutation of `self.attrs` by `BaseForm.render` is modelled by
  returning the post-call form state alongside the rendered string.
* A raised exception is an `Except.error` carrying the message.
-/

namespace Formulaic

/-! ## Attribute dictionaries (Python `dict` in insertion order) -/

abbrev Attrs := List (String × String)

/-- Python `d[k]` / `d.get(k, None)`: first binding of `k`. -/
def dictLookup (k : String) : Attrs → Option String
  | [] => none
  | (k', v) :: rest => if k' = k then some v else dictLookup k rest

/-- Python `d[k] = v`: replace the binding in place, else append. -/
def dictSet : Attrs → String → String → Attrs
  | [], k, v => [(k, v)]
  | (k', v') :: rest, k, v =>
    if k' = k then (k', v) :: rest else (k', v') :: dictSet rest k v

/-- Python `d.update(u)`: assign every binding of `u` into `d` in order. -/
def dictUpdate (d : Attrs) (u : Attrs) : Attrs :=
  u.foldl (fun acc p => dictSet acc p.1 p.2) d

/-! ## `xml.sax.saxutils.escape` and `quoteattr`

`escape(data)` is `data.replace('&','&amp;').replace('<','&lt;').replace('>','&gt;')`;
`quoteattr(data)` escapes and then picks a quoting style depending on which
quote characters occur in the data (Python 2.4 `saxutils`). -/

/-- Python `str.replace(pat, rep)` for a single-character pattern. -/
def pyReplaceChar (pat : Char) (rep : List Char) : List Char → List Char
  | [] => []
  | c :: cs => (if c = pat then rep else [c]) ++ pyReplaceChar pat rep cs

/-- `xml.sax.saxutils.escape` on `List Char`: the three sequential replaces. -/
def saxEscapeList (l : List Char) : List Char :=
  pyReplaceChar '>' "&gt;".data
    (pyReplaceChar '<' "&lt;".data
      (pyReplaceChar '&' "&amp;".data l))

def saxEscape (s : String) : String := String.mk (saxEscapeList s.data)

/-- `xml.sax.saxutils.quoteattr`: escape, then wrap in `"` quotes; if the
data contains `"` wrap in `'` quotes instead, unless it also contains `'`,
in which case `"` is replaced by `&quot;` and `"` quotes are used. -/
def quoteattrFun (s : String) : String :=
  if '"' ∈ saxEscapeList s.data then
    if '\'' ∈ saxEscapeList s.data then
      String.mk ('"' :: pyReplaceChar '"' "&quot;".data (saxEscapeList s.data) ++ ['"'])
    else String.mk ('\'' :: saxEscapeList s.data ++ ['\''])
  else String.mk ('"' :: saxEscapeList s.data ++ ['"'])

/-! ## `string.Template` substitution

The library only ever substitutes `$identifier` placeholders (never `${}`),
always supplying every referenced key for `substitute` and relying on
`safe_substitute` leaving unknown placeholders intact (`TableForm.__init__`).
The model leaves an unknown or malformed placeholder in place, which agrees
with every call site in the source. -/

def identStart (c : Char) : Bool := c.isAlpha || c = '_'
def identChar (c : Char) : Bool := c.isAlphanum || c = '_'

def substLookup (k : String) : List (String × String) → Option String
  | [] => none
  | (k', v) :: rest => if k' = k then some v else substLookup k rest

/-- Single left-to-right scan of the template.  The `fuel` argument only
serves to make the recursion structural; every recursive call consumes at
least one template character, so starting the scan with
`fuel = template length` never exhausts it. -/
def templateSubstAux (m : List (String × String)) : Nat → List Char → List Char
  | 0, l => l
  | _ + 1, [] => []
  | fuel + 1, c :: rest =>
    if c = '$' then
      match rest with
      | [] => ['$']
      | d :: ds =>
        if d = '$' then '$' :: templateSubstAux m fuel ds
        else if identStart d then
          (match substLookup (String.mk (d :: ds.takeWhile identChar)) m with
           | some v => v.data
           | none => '$' :: d :: ds.takeWhile identChar) ++
          templateSubstAux m fuel (ds.dropWhile identChar)
        else '$' :: templateSubstAux m fuel rest
    else c :: templateSubstAux m fuel rest

def templateSubstList (m : List (String × String)) (l : List Char) : List Char :=
  templateSubstAux m l.length l

def templateSubst (m : List (String × String)) (s : String) : String :=
  String.mk (templateSubstList m s.data)

/-! ## `str.strip()` -/

def pyIsSpace (c : Char) : Bool :=
  c = ' ' || c = '\t' || c = '\n' || c = Char.ofNat 13 ||
  c = Char.ofNat 11 || c = Char.ofNat 12

def pyStripList (l : List Char) : List Char :=
  ((l.dropWhile pyIsSpace).reverse.dropWhile pyIsSpace).reverse

def pyStrip (s : String) : String := String.mk (pyStripList s.data)

/-! ## `renderAttributes`

`Widget.renderAttributes` (`basicwidgets/widgetclasses.py`,
`htmlwidgets/widgetclasses.py`) and `BaseForm.renderAttributes` (`forms.py`)
are the same code: `' '.join('%s=%s' % (name, quoteattr(str(value))) for
(name, value) in attrs.items() + kwargs.items())`.  The keyword arguments of
a call site are passed here appended to `attrs`. -/

def renderAttrs (attrs : Attrs) : String :=
  String.intercalate " " (attrs.map (fun p => p.1 ++ "=" ++ quoteattrFun p.2))

/-! ## Widget renderers (`basicwidgets/widgetclasses.py`)

A renderer object carries a kind-specific core (the constructed widget
class instance) plus the attributes that `_TransformerBase.__call__` always
sets on it (`renderBare`, `needsMultipart`, `label`, `default`,
`description`).  Values are modelled as strings (the multi-select list case
of `Select.__isSelected` is outside the claims; for string values the
`basestring` branch applies and selection is plain equality). -/

/-- `Select`/`RadioInput` options: a list, or a dict iterated as
`sorted(options.items())` at render time. -/
inductive SelectOptions where
  | fromList (l : List String)
  | fromDict (d : List (String × String))
  deriving DecidableEq

def SelectOptions.isEmpty : SelectOptions → Bool
  | .fromList l => l.isEmpty
  | .fromDict d => d.isEmpty

inductive WidgetCore where
  | input (attrs : Attrs)
  | custom (content : String)
  | checkbox (attrs : Attrs)
  | textarea (attrs : Attrs)
  | radio (options : List String) (attrs : Attrs) (separator : String)
  | select (options : SelectOptions) (attrs : Attrs) (separator : String)
  deriving DecidableEq

structure Renderer where
  core : WidgetCore
  renderBare : Bool
  needsMultipart : Bool
  label : Option String
  default : Option String
  description : String
  deriving DecidableEq

/-- `Select.__isSelected` for a string-valued selection (the `basestring`
branch of the source). -/
def isSelected (item selection : String) : Bool := item = selection

/-- Sorting of `options.items()`; dict keys are distinct, so Python's
tuple sort orders by key. -/
def sortByKey (d : List (String × String)) : List (String × String) :=
  d.mergeSort (fun a b => a.1 ≤ b.1)

def selectOptionTag (label item_value : String) (sel : Bool) : String :=
  if sel then
    "<option selected=\"selected\" value=" ++ quoteattrFun label ++ ">" ++
      saxEscape item_value ++ "</option>"
  else
    "<option value=" ++ quoteattrFun label ++ ">" ++ saxEscape item_value ++ "</option>"

/-- The `_render` method of each widget class. -/
def coreRender : WidgetCore → String → String → String
  | .input attrs, name, value =>
    "<input " ++ renderAttrs (attrs ++ [("name", name), ("value", value)]) ++ "/>"
  | .custom content, name, value =>
    templateSubst [("name", quoteattrFun name), ("value", saxEscape value)] content
  | .checkbox attrs, name, value =>
    -- `CheckboxInput` inherits `Input._render`; it is bypassed by the
    -- overridden `__call__`, but exists.
    "<input " ++ renderAttrs (attrs ++ [("name", name), ("value", value)]) ++ "/>"
  | .textarea attrs, name, value =>
    "<textarea " ++ renderAttrs (attrs ++ [("name", name)]) ++ ">" ++
      saxEscape value ++ "</textarea>"
  | .radio options attrs sep, name, value =>
    String.intercalate sep (options.map (fun choice =>
      if value ≠ choice then
        "<input " ++ renderAttrs (attrs ++ [("name", name), ("value", choice)]) ++ ">" ++
          saxEscape choice ++ "</input>"
      else
        "<input " ++
          renderAttrs (attrs ++ [("checked", "checked"), ("name", name), ("value", choice)]) ++
          ">" ++ saxEscape value ++ "</input>"))
  | .select options attrs sep, name, value =>
    let opts := match options with
      | .fromDict d => (sortByKey d).map (fun p => selectOptionTag p.1 p.2 (isSelected p.2 value))
      | .fromList l => l.map (fun iv => selectOptionTag iv iv (isSelected iv value))
    "<select " ++ renderAttrs (attrs ++ [("name", name)]) ++ ">\n" ++
      String.intercalate sep opts ++ "\n</select>"

/-- Python truthiness of a nullable string. -/
def pyTruthy : Option String → Bool
  | none => false
  | some s => !s.isEmpty

/-- `CheckboxInput.__call__` (identical in `basicwidgets/widgetclasses.py`
and `htmlwidgets/widgetclasses.py`): works on the raw value, never consults
the default. -/
def checkboxCall (attrs : Attrs) (name : String) (value : Option String) : String :=
  if pyTruthy value then
    "<input " ++ renderAttrs (attrs ++ [("name", name), ("checked", "checked")]) ++ "/>"
  else
    "<input " ++ renderAttrs (attrs ++ [("name", name)]) ++ "/>"

/-- `value or ''` after the `None → default` substitution of
`Widget.__call__`. -/
def pyOrEmpty : Option String → String
  | none => ""
  | some s => s

/-- Invoking a renderer: `Widget.__call__` (identical in both widget
modules) substitutes the default for `None` and empties a falsy value, then
dispatches to `_render`; `CheckboxInput` overrides `__call__` itself. -/
def rendererCall (r : Renderer) (name : String) (value : Option String) : String :=
  match r.core with
  | .checkbox attrs => checkboxCall attrs name value
  | core =>
    coreRender core name
      (pyOrEmpty (match value with
        | none => r.default
        | some v => some v))

def isCheckboxCore : WidgetCore → Bool
  | .checkbox _ => true
  | _ => false

/-! ## Widget transformers (`basicwidgets/__init__.py`)

`_TransformerBase.__call__` copies the validator (or builds an inert one),
constructs the widget class and attaches it as the `renderer` attribute of
the copy.  Object identity and mutation are modelled with an explicit heap:
a validator object is a heap cell holding its own (opaque) state `payload`
and its `renderer` attribute slot; `copy.copy` allocates a fresh cell with
the same contents at the end of the heap. -/

/-- A formencode validator object as the library sees it: opaque own state
plus the duck-typed `renderer` attribute (`none` = attribute absent). -/
structure VObj where
  payload : Nat
  renderer : Option Renderer
  deriving DecidableEq

def setRenderer (h : List VObj) (i : Nat) (r : Option Renderer) : List VObj :=
  match h[i]? with
  | some o => h.set i ⟨o.payload, r⟩
  | none => h

/-- The eleven transformer instances defined at the bottom of
`basicwidgets/__init__.py`. -/
inductive TransformerKind where
  | textInput | passwordInput | buttonInput | imageInput | fileInput
  | textarea | hiddenInput | checkboxInput | radioInput | select | custom
  deriving DecidableEq

/-- The `renderBare` constructor argument of each `_TransformerBase`. -/
def transformerRenderBare : TransformerKind → Bool
  | .hiddenInput => true
  | _ => false

/-- The `needsMultipart` constructor argument of each `_TransformerBase`. -/
def transformerNeedsMultipart : TransformerKind → Bool
  | .fileInput => true
  | _ => false

/-- The caller-supplied widget-class arguments (`*args, **kw` of
`_TransformerBase.__call__`), one optional slot per widget-class
parameter. -/
structure WidgetArgs where
  attrs : Option Attrs
  options : Option (List String)
  selOptions : Option SelectOptions
  separator : String
  content : String
  deriving DecidableEq

/-- `Input.__init__(type, attrs)`: `self.attrs = copy(defaultAttrs)` (empty
for `Input`), then `attrs['type'] = type` is forced onto the caller dict
before `self.attrs.update(attrs)`. -/
def inputInitAttrs (type : String) (attrs : Option Attrs) : Attrs :=
  dictUpdate [] (dictSet (attrs.getD []) "type" type)

/-- `Textarea` keeps `defaultAttrs = {'rows':'10','cols':'20'}` and
inherits `Input.__init__`, whose `type` parameter defaults to `'text'`. -/
def textareaInitAttrs (attrs : Option Attrs) : Attrs :=
  dictUpdate [("rows", "10"), ("cols", "20")] (dictSet (attrs.getD []) "type" "text")

/-- `RadioInput.__init__` delegates to `Input.__init__(self, attrs=attrs)`
over `defaultAttrs = {'type':'radio'}`; the defaulted `type='text'`
parameter therefore overwrites the radio type, which the model reproduces
verbatim. -/
def radioInitAttrs (attrs : Option Attrs) : Attrs :=
  dictUpdate [("type", "radio")] (dictSet (attrs.getD []) "type" "text")

def pyNotList (o : Option (List String)) : Bool :=
  match o with
  | none => true
  | some l => l.isEmpty

def pyNotSelectOptions (o : Option SelectOptions) : Bool :=
  match o with
  | none => true
  | some so => so.isEmpty

/-- `self.widgetClass(*args, **kw)`: construction of the widget class for
each transformer kind.  `kw.update(self.defaultArgs)` lets the kind-default
arguments (e.g. `type='text'` for `TextInput`) overwrite caller-supplied
ones, so the `type` passed to `Input.__init__` is the kind's own.
`RadioInput.__init__`/`Select.__init__` raise when no options are given. -/
def mkCore : TransformerKind → WidgetArgs → Except String WidgetCore
  | .textInput, w => .ok (.input (inputInitAttrs "text" w.attrs))
  | .passwordInput, w => .ok (.input (inputInitAttrs "password" w.attrs))
  | .buttonInput, w => .ok (.input (inputInitAttrs "button" w.attrs))
  | .imageInput, w => .ok (.input (inputInitAttrs "image" w.attrs))
  | .fileInput, w => .ok (.input (inputInitAttrs "file" w.attrs))
  | .textarea, w => .ok (.textarea (textareaInitAttrs w.attrs))
  | .hiddenInput, w => .ok (.input (inputInitAttrs "hidden" w.attrs))
  | .checkboxInput, w => .ok (.checkbox (inputInitAttrs "text" w.attrs))
  | .radioInput, w =>
    if pyNotList w.options then .error "No options passed in creation of radio widget"
    else .ok (.radio (w.options.getD []) (radioInitAttrs w.attrs) w.separator)
  | .select, w =>
    if pyNotSelectOptions w.selOptions then .error "No options provided for select widget"
    else .ok (.select (w.selOptions.getD (.fromList [])) (inputInitAttrs "text" w.attrs) w.separator)
  | .custom, w => .ok (.custom w.content)

/-- `_TransformerBase.__call__(validator, label, description, default, ...)`:
copy the validator (or allocate an inert one), construct the widget class,
attach it as `renderer` with the required attributes set, and return the
copy's address together with the heap after the call. -/
def transformerCall (k : TransformerKind) (h : List VObj) (validator : Option Nat)
    (label : Option String) (description : String) (default : Option String)
    (w : WidgetArgs) : Except String (Nat × List VObj) :=
  let widget : VObj :=
    match validator with
    | none => ⟨0, none⟩
    | some a => (h.getD a ⟨0, none⟩)
  let waddr := h.length
  let h1 := h ++ [widget]
  match mkCore k w with
  | .error e => .error e
  | .ok core =>
    let r : Renderer :=
      { core := core
        renderBare := transformerRenderBare k
        needsMultipart := transformerNeedsMultipart k
        label := label
        default := default
        description := description }
    .ok (waddr, setRenderer h1 waddr (some r))

/-! ## `htmlwidgets/__init__.py` transformer functions

These older transformer functions assign the renderer directly onto the
caller's validator object and return it (`validator.renderer = ...;
return validator`) — no copy is made. -/

/-- `htmlwidgets.Input.__init__(label, default, attrs)`:
`defaultAttrs = {}` updated with the caller attrs. -/
def htmlInputAttrs (attrs : Option Attrs) : Attrs :=
  dictUpdate [] (attrs.getD [])

/-- `htmlwidgets.TextInput(validator, label, default=None, attrs=None)`. -/
def htmlTextInput (h : List VObj) (validator : Nat) (label : Option String)
    (default : Option String) (attrs : Option Attrs) : Nat × List VObj :=
  let a := dictSet (attrs.getD []) "type" "text"
  let r : Renderer :=
    { core := .input (htmlInputAttrs (some a))
      renderBare := false        -- attribute absent on the object; `getattr` default
      needsMultipart := false    -- attribute absent on the object; `getattr` default
      label := label
      default := default
      description := "" }
  (validator, setRenderer h validator (some r))

/-- `htmlwidgets.RadioInput.__init__(label, values, default, attrs,
separator)`: stores the option values and separator, then delegates to
`htmlwidgets.Input.__init__` over `defaultAttrs = {'type':'radio'}`.
There is no emptiness check on `values`; construction always succeeds. -/
def htmlRadioInit (label : Option String) (values : List String)
    (default : Option String) (attrs : Option Attrs) (separator : String) : Renderer :=
  { core := .radio values (dictUpdate [("type", "radio")] (attrs.getD [])) separator
    renderBare := false
    needsMultipart := false
    label := label
    default := default
    description := "" }

/-- `htmlwidgets.Select.__init__(label, values, default, attrs,
separator)`: stores the option values and separator, then delegates to
`htmlwidgets.Input.__init__` (empty `defaultAttrs`).  There is no
emptiness check on `values`; construction always succeeds. -/
def htmlSelectInit (label : Option String) (values : SelectOptions)
    (default : Option String) (attrs : Option Attrs) (separator : String) : Renderer :=
  { core := .select values (dictUpdate [] (attrs.getD [])) separator
    renderBare := false
    needsMultipart := false
    label := label
    default := default
    description := "" }

/-! ## Form containers (`forms.py`)

`BaseForm` is an ordered dictionary of fields; rendering only touches each
field's `renderer` attribute, so a field is modelled by its renderer.  The
template class variables are collected in `FormTpls` (subclasses override
them; instances read them through `self`).  `render` assigns
`self.attrs['enctype']` in place when some renderer needs multipart, so it
returns the post-call form state next to the rendered string. -/

structure FormTpls where
  fieldSeparator : String
  formTpl : String
  footer : String
  labelTpl : String
  errorTpl : String
  normalFieldTpl : String
  bareFieldTpl : String
  deriving DecidableEq

/-- The `BaseForm` class-variable templates. -/
def baseFormTpls : FormTpls :=
  { fieldSeparator := "\n\n"
    formTpl := "<form $formAttributes>\n\n$fields\n\n$footer\n\n</form>"
    footer := "<input type=\"submit\" value=\"$submitLabel\"/>"
    labelTpl := "<label>$label</label>"
    errorTpl := "<span class=\"error\">$error</span>"
    normalFieldTpl := "$label\n$widget\n$error"
    bareFieldTpl := "$widget" }

/-- The template overrides of `TableForm` (its `formTpl` is specialised per
instance by `TableForm.__init__`, see `tableFormInit`). -/
def tableFormTplRaw : String :=
  "<form $formAttributes>\n<table $tableAttributes>\n\n$fields\n\n</table>\n</form>"

def tableFormTpls : FormTpls :=
  { baseFormTpls with
    formTpl := tableFormTplRaw
    normalFieldTpl := "<tr><td>$label</td><td>$widget</td><td>$error</td></tr>"
    bareFieldTpl := "<tr><td>$widget</td></tr>" }

structure Form where
  fields : List (String × Renderer)
  attrs : Attrs
  submitLabel : String
  deriving DecidableEq

/-- `BaseForm.__init__(method, action, submitLabel, attrs)`. -/
def baseFormInit (method action submitLabel : String) (attrs : Option Attrs) : Form :=
  { fields := []
    attrs := dictUpdate [("method", method), ("action", action)] (attrs.getD [])
    submitLabel := submitLabel }

/-- `BaseForm.renderField` on a field's renderer: render the widget, pick
the bare or normal template from the `renderBare` attribute, fill the error
and label slots (empty when absent), substitute and strip. -/
def renderFieldR (t : FormTpls) (r : Renderer) (name : String)
    (value : Option String) (error : Option String) : String :=
  let widgetStr := rendererCall r name value
  let template := if r.renderBare then t.bareFieldTpl else t.normalFieldTpl
  let errorStr :=
    match error with
    | some e => if e.isEmpty then "" else templateSubst [("error", e)] t.errorTpl
    | none => ""
  let labelStr :=
    match r.label with
    | some l => templateSubst [("label", l)] t.labelTpl
    | none => ""
  pyStrip (templateSubst [("label", labelStr), ("widget", widgetStr), ("error", errorStr)] template)

/-- `BaseForm.renderFooter`. -/
def renderFooter (t : FormTpls) (submitLabel : String) : String :=
  let sl := String.mk (pyReplaceChar '"' "&quot;".data (saxEscapeList submitLabel.data))
  let widgetStr := templateSubst [("submitLabel", sl)] t.footer
  pyStrip (templateSubst [("label", ""), ("widget", widgetStr), ("error", "")] t.normalFieldTpl)

/-- `BaseForm.render(values, errors)`: render every field in insertion
order, aggregate `needsMultipart`, assign `self.attrs['enctype']` when set,
then substitute fields, footer and the attribute string into `formTpl`.
Returns the output together with the form state after the call. -/
def formRender (t : FormTpls) (f : Form) (values errors : Attrs) : String × Form :=
  let renderedFields := f.fields.map (fun p =>
    renderFieldR t p.2 p.1 (dictLookup p.1 values) (dictLookup p.1 errors))
  let needsMultipart := f.fields.any (fun p => p.2.needsMultipart)
  let footer := renderFooter t f.submitLabel
  let attrs' := if needsMultipart then dictSet f.attrs "enctype" "multipart/form-data" else f.attrs
  let fields := String.intercalate t.fieldSeparator renderedFields
  let formAttributes := renderAttrs attrs'
  (templateSubst [("fields", fields), ("footer", footer), ("formAttributes", formAttributes)] t.formTpl,
   { f with attrs := attrs' })

/-- `BaseForm.smartRender(values, errors)`: when the submitted keys do not
intersect the form's field names, render with an empty error dict. -/
def smartRender (t : FormTpls) (f : Form) (values errors : Attrs) : String × Form :=
  if values.any (fun kv => f.fields.any (fun fd => fd.1 = kv.1)) then
    formRender t f values errors
  else
    formRender t f values []

/-- `TableForm.__init__`: build the base form, then
`self.tableAttrs.update(tableAttrs or {})` — an in-place update of the
**class-level** dict `TableForm.tableAttrs` — and specialise the instance's
`formTpl` by `safe_substitute`-ing the rendered table attributes.  The
class-level dict is threaded explicitly: the function takes its current
state and returns its state after the call. -/
def tableFormInit (classTableAttrs : Attrs) (method action : String)
    (formAttrs : Option Attrs) (tableAttrs : Option Attrs) (submitLabel : String) :
    (Form × String) × Attrs :=
  let base := baseFormInit method action submitLabel formAttrs
  let cls := dictUpdate classTableAttrs (tableAttrs.getD [])
  let tpl := templateSubst [("tableAttributes", renderAttrs cls)] tableFormTplRaw
  ((base, tpl), cls)

/-- The initial value of the class-level dict `TableForm.tableAttrs`. -/
def tableFormDefaultTableAttrs : Attrs :=
  [("border", "0"), ("cellpadding", "0"), ("cellspacing", "0")]

/-! ## Escaping analysis helpers

`escChar` is the per-character view of the three sequential replaces of
`escape`; `escCharQ` additionally applies the `&quot;` replacement that
`quoteattr` performs in its both-quotes branch.  `ampOk l` states that
every `&` in `l` starts one of the four entities the library can emit. -/

def escChar (c : Char) : List Char :=
  if c = '&' then ['&', 'a', 'm', 'p', ';']
  else if c = '<' then ['&', 'l', 't', ';']
  else if c = '>' then ['&', 'g', 't', ';']
  else [c]

def escCharQ (c : Char) : List Char :=
  if c = '"' then ['&', 'q', 'u', 'o', 't', ';'] else escChar c

def ampOk : List Char → Bool
  | [] => true
  | c :: rest =>
    (if c = '&' then
      (List.isPrefixOf ['a', 'm', 'p', ';'] rest || List.isPrefixOf ['l', 't', ';'] rest ||
       List.isPrefixOf ['g', 't', ';'] rest || List.isPrefixOf ['q', 'u', 'o', 't', ';'] rest)
     else true) && ampOk rest

def exceptIsError {ε α : Type} : Except ε α → Bool
  | .error _ => true
  | .ok _ => false

/-! ## Concrete fixtures used by counterexamples and witnesses -/

/-- A `BaseForm` constructed with an explicit `enctype` attribute and no
fields. -/
def encForm : Form := baseFormInit "POST" "" "Submit" (some [("enctype", "multipart/form-data")])

/-- The renderer `basicwidgets.FileInput` attaches
(`needsMultipart = True`). -/
def fileR : Renderer :=
  ⟨.input [("type", "file")], false, true, some "Upload", none, ""⟩

/-- A form holding one file-upload field. -/
def fileForm : Form :=
  { fields := [("up", fileR)], attrs := [("method", "POST"), ("action", "")], submitLabel := "Submit" }

/-- The renderer `basicwidgets.TextInput` attaches when called with a
`None` label: `renderBare` is `False` although the label is null. -/
def bareNoneR : Renderer := ⟨.input [("type", "text")], false, false, none, none, ""⟩

/-- A form with two text fields `a` and `b`. -/
def abForm : Form :=
  { fields := [("a", bareNoneR), ("b", bareNoneR)]
    attrs := [("method", "POST"), ("action", "")]
    submitLabel := "Submit" }

/-- A one-object heap: a validator with payload `7` and no renderer
attribute. -/
def htmlHeap0 : List VObj := [⟨7, none⟩]

/-! ## Helper lemmas: escaping -/

theorem pyReplaceChar_append (p : Char) (rep : List Char) (a b : List Char) :
    pyReplaceChar p rep (a ++ b) = pyReplaceChar p rep a ++ pyReplaceChar p rep b := by
  induction a with
  | nil => rfl
  | cons c cs ih => simp [pyReplaceChar, ih]

theorem saxEscapeList_cons (c : Char) (cs : List Char) :
    saxEscapeList (c :: cs) = escChar c ++ saxEscapeList cs := by
  have hsplit : saxEscapeList (c :: cs) =
      pyReplaceChar '>' "&gt;".data
        (pyReplaceChar '<' "&lt;".data (if c = '&' then "&amp;".data else [c])) ++
      saxEscapeList cs := by
    show pyReplaceChar '>' "&gt;".data (pyReplaceChar '<' "&lt;".data
      ((if c = '&' then "&amp;".data else [c]) ++ pyReplaceChar '&' "&amp;".data cs)) = _
    rw [pyReplaceChar_append, pyReplaceChar_append]
    rfl
  rw [hsplit]
  congr 1
  by_cases h1 : c = '&'
  · subst h1; decide
  rw [if_neg h1]
  by_cases h2 : c = '<'
  · subst h2; decide
  by_cases h3 : c = '>'
  · subst h3; decide
  · simp [pyReplaceChar, escChar, h1, h2, h3]

theorem saxEscapeList_eq_flatMap (l : List Char) :
    saxEscapeList l = l.flatMap escChar := by
  induction l with
  | nil => rfl
  | cons c cs ih => rw [saxEscapeList_cons, List.flatMap_cons, ih]

theorem escChar_cases (c : Char) :
    escChar c = ['&', 'a', 'm', 'p', ';'] ∨ escChar c = ['&', 'l', 't', ';'] ∨
      escChar c = ['&', 'g', 't', ';'] ∨
      (escChar c = [c] ∧ c ≠ '&' ∧ c ≠ '<' ∧ c ≠ '>') := by
  unfold escChar
  by_cases h1 : c = '&'
  · simp [h1]
  by_cases h2 : c = '<'
  · simp [h1, h2]
  by_cases h3 : c = '>'
  · simp [h1, h2, h3]
  · simp [h1, h2, h3]

theorem escCharQ_cases (c : Char) :
    escCharQ c = ['&', 'a', 'm', 'p', ';'] ∨ escCharQ c = ['&', 'l', 't', ';'] ∨
      escCharQ c = ['&', 'g', 't', ';'] ∨ escCharQ c = ['&', 'q', 'u', 'o', 't', ';'] ∨
      (escCharQ c = [c] ∧ c ≠ '&' ∧ c ≠ '<' ∧ c ≠ '>' ∧ c ≠ '"') := by
  unfold escCharQ
  by_cases hq : c = '"'
  · simp [hq]
  · rcases escChar_cases c with h | h | h | ⟨h, h1, h2, h3⟩
    · simp [hq, h]
    · simp [hq, h]
    · simp [hq, h]
    · simp [hq, h, h1, h2, h3]

theorem escChar_ne_quot (c : Char) (h : c ≠ '"') :
    pyReplaceChar '"' ['&', 'q', 'u', 'o', 't', ';'] (escChar c) = escChar c := by
  rcases escChar_cases c with hc | hc | hc | ⟨hc, _, _, _⟩ <;> rw [hc]
  · decide
  · decide
  · decide
  · simp [pyReplaceChar, h]

theorem replace_quot_flatMap (l : List Char) :
    pyReplaceChar '"' "&quot;".data (l.flatMap escChar) = l.flatMap escCharQ := by
  show pyReplaceChar '"' ['&', 'q', 'u', 'o', 't', ';'] (l.flatMap escChar) = _
  induction l with
  | nil => rfl
  | cons c cs ih =>
    rw [List.flatMap_cons, List.flatMap_cons, pyReplaceChar_append, ih]
    congr 1
    by_cases hq : c = '"'
    · subst hq
      show pyReplaceChar '"' _ ['"'] = _
      simp [pyReplaceChar, escCharQ]
    · rw [escChar_ne_quot c hq]
      simp [escCharQ, hq]

theorem ampOk_cons_ne (d : Char) (hne : d ≠ '&') (x : List Char) :
    ampOk (d :: x) = ampOk x := by
  simp [ampOk, hne]

theorem ampOk_amp_entity (x : List Char) :
    ampOk ('&' :: 'a' :: 'm' :: 'p' :: ';' :: x) = ampOk x := by
  simp [ampOk, List.isPrefixOf]

theorem ampOk_lt_entity (x : List Char) :
    ampOk ('&' :: 'l' :: 't' :: ';' :: x) = ampOk x := by
  simp [ampOk, List.isPrefixOf]

theorem ampOk_gt_entity (x : List Char) :
    ampOk ('&' :: 'g' :: 't' :: ';' :: x) = ampOk x := by
  simp [ampOk, List.isPrefixOf]

theorem ampOk_quot_entity (x : List Char) :
    ampOk ('&' :: 'q' :: 'u' :: 'o' :: 't' :: ';' :: x) = ampOk x := by
  simp [ampOk, List.isPrefixOf]

theorem ampOk_flatMap (f : Char → List Char)
    (hf : ∀ c, f c = ['&', 'a', 'm', 'p', ';'] ∨ f c = ['&', 'l', 't', ';'] ∨
      f c = ['&', 'g', 't', ';'] ∨ f c = ['&', 'q', 'u', 'o', 't', ';'] ∨
      (∃ d, f c = [d] ∧ d ≠ '&')) :
    ∀ l : List Char, ampOk (l.flatMap f) = true := by
  intro l
  induction l with
  | nil => rfl
  | cons c cs ih =>
    rw [List.flatMap_cons]
    rcases hf c with h | h | h | h | ⟨d, hd, hne⟩
    · rw [h]; show ampOk ('&' :: 'a' :: 'm' :: 'p' :: ';' :: cs.flatMap f) = true
      rw [ampOk_amp_entity]; exact ih
    · rw [h]; show ampOk ('&' :: 'l' :: 't' :: ';' :: cs.flatMap f) = true
      rw [ampOk_lt_entity]; exact ih
    · rw [h]; show ampOk ('&' :: 'g' :: 't' :: ';' :: cs.flatMap f) = true
      rw [ampOk_gt_entity]; exact ih
    · rw [h]; show ampOk ('&' :: 'q' :: 'u' :: 'o' :: 't' :: ';' :: cs.flatMap f) = true
      rw [ampOk_quot_entity]; exact ih
    · rw [hd]; show ampOk (d :: cs.flatMap f) = true
      rw [ampOk_cons_ne d hne]; exact ih

theorem not_mem_flatMap_of_blocks (x : Char) (f : Char → List Char)
    (hblk : ∀ c, x ∉ f c) (l : List Char) : x ∉ l.flatMap f := by
  intro hx
  rcases List.mem_flatMap.mp hx with ⟨c, _, hc⟩
  exact hblk c hc

theorem escChar_not_mem_lt (c : Char) : '<' ∉ escChar c := by
  rcases escChar_cases c with h | h | h | ⟨h, _, h2, _⟩ <;> rw [h]
  · decide
  · decide
  · decide
  · intro hc; simp at hc; exact h2 hc.symm

theorem escChar_not_mem_gt (c : Char) : '>' ∉ escChar c := by
  rcases escChar_cases c with h | h | h | ⟨h, _, _, h3⟩ <;> rw [h]
  · decide
  · decide
  · decide
  · intro hc; simp at hc; exact h3 hc.symm

theorem escCharQ_not_mem_lt (c : Char) : '<' ∉ escCharQ c := by
  rcases escCharQ_cases c with h | h | h | h | ⟨h, _, h2, _, _⟩ <;> rw [h]
  · decide
  · decide
  · decide
  · decide
  · intro hc; simp at hc; exact h2 hc.symm

theorem escCharQ_not_mem_gt (c : Char) : '>' ∉ escCharQ c := by
  rcases escCharQ_cases c with h | h | h | h | ⟨h, _, _, h3, _⟩ <;> rw [h]
  · decide
  · decide
  · decide
  · decide
  · intro hc; simp at hc; exact h3 hc.symm

theorem escCharQ_not_mem_quot (c : Char) : '"' ∉ escCharQ c := by
  rcases escCharQ_cases c with h | h | h | h | ⟨h, _, _, _, h4⟩ <;> rw [h]
  · decide
  · decide
  · decide
  · decide
  · intro hc; simp at hc; exact h4 hc.symm

theorem mem_flatMap_escChar_plain (x : Char) (hx1 : x ≠ '&') (hx2 : x ≠ '<') (hx3 : x ≠ '>')
    (hn1 : x ∉ ['&', 'a', 'm', 'p', ';']) (hn2 : x ∉ ['&', 'l', 't', ';'])
    (hn3 : x ∉ ['&', 'g', 't', ';']) (l : List Char) :
    x ∈ l.flatMap escChar ↔ x ∈ l := by
  rw [List.mem_flatMap]
  constructor
  · rintro ⟨c, hcl, hcf⟩
    rcases escChar_cases c with h | h | h | ⟨h, _, _, _⟩
    · rw [h] at hcf; exact absurd hcf hn1
    · rw [h] at hcf; exact absurd hcf hn2
    · rw [h] at hcf; exact absurd hcf hn3
    · rw [h] at hcf; simp at hcf; subst hcf; exact hcl
  · intro hxl
    refine ⟨x, hxl, ?_⟩
    simp [escChar, hx1, hx2, hx3]

theorem escChar_hf (c : Char) :
    escChar c = ['&', 'a', 'm', 'p', ';'] ∨ escChar c = ['&', 'l', 't', ';'] ∨
      escChar c = ['&', 'g', 't', ';'] ∨ escChar c = ['&', 'q', 'u', 'o', 't', ';'] ∨
      (∃ d, escChar c = [d] ∧ d ≠ '&') := by
  rcases escChar_cases c with h | h | h | ⟨h, h1, _, _⟩
  · exact .inl h
  · exact .inr (.inl h)
  · exact .inr (.inr (.inl h))
  · exact .inr (.inr (.inr (.inr ⟨c, h, h1⟩)))

theorem escCharQ_hf (c : Char) :
    escCharQ c = ['&', 'a', 'm', 'p', ';'] ∨ escCharQ c = ['&', 'l', 't', ';'] ∨
      escCharQ c = ['&', 'g', 't', ';'] ∨ escCharQ c = ['&', 'q', 'u', 'o', 't', ';'] ∨
      (∃ d, escCharQ c = [d] ∧ d ≠ '&') := by
  rcases escCharQ_cases c with h | h | h | h | ⟨h, h1, _, _, _⟩
  · exact .inl h
  · exact .inr (.inl h)
  · exact .inr (.inr (.inl h))
  · exact .inr (.inr (.inr (.inl h)))
  · exact .inr (.inr (.inr (.inr ⟨c, h, h1⟩)))

/-! ## Claim theorems -/

/-- C5 (counterexample): a value that contains `"` but no `'` is *not*
attribute-escaped for the quote character: `quoteattr` switches to
single-quote delimiters and the raw `"` appears verbatim at the
attribute-value position of the rendered `<input>` element, not as
`&quot;`. -/
theorem quoteattr_leaves_quote_unescaped :
    coreRender (.input [("type", "text")]) "f" "x\"y" =
      "<input type=\"text\" name=\"f\" value='x\"y'/>" ∧
    quoteattrFun "x\"y" = "'x\"y'" ∧
    '"' ∈ "'x\"y'".data ∧ ¬ "&quot;".data <:+: "'x\"y'".data := by
  refine ⟨by decide, by decide, by decide, by decide⟩

/-- C5 (amended): in text positions `escape` leaves no raw `<` or `>` and
every `&` starts an emitted entity; in attribute positions `quoteattr`
produces a delimiter-wrapped body in which the chosen delimiter, `<` and
`>` never occur and every `&` starts an entity.  The quote character is
rewritten to `&quot;` only in the both-quotes branch; otherwise a `"` can
occur literally inside a single-quoted attribute value (see the
counterexample), which still cannot terminate the attribute context. -/
theorem escaping_attribute_and_text_sound (s : String) :
    ('<' ∉ (saxEscape s).data ∧ '>' ∉ (saxEscape s).data ∧
      ampOk (saxEscape s).data = true) ∧
    (∃ delim body, (delim = '"' ∨ delim = '\'') ∧
      (quoteattrFun s).data = delim :: body ++ [delim] ∧
      delim ∉ body ∧ '<' ∉ body ∧ '>' ∉ body ∧ ampOk body = true) := by
  constructor
  · show '<' ∉ saxEscapeList s.data ∧ '>' ∉ saxEscapeList s.data ∧
      ampOk (saxEscapeList s.data) = true
    rw [saxEscapeList_eq_flatMap]
    exact ⟨not_mem_flatMap_of_blocks '<' escChar escChar_not_mem_lt s.data,
           not_mem_flatMap_of_blocks '>' escChar escChar_not_mem_gt s.data,
           ampOk_flatMap escChar escChar_hf s.data⟩
  · by_cases hq : '"' ∈ saxEscapeList s.data
    · by_cases hq2 : '\'' ∈ saxEscapeList s.data
      · refine ⟨'"', pyReplaceChar '"' "&quot;".data (saxEscapeList s.data),
          .inl rfl, ?_, ?_, ?_, ?_, ?_⟩
        · show (quoteattrFun s).data = _
          unfold quoteattrFun
          rw [if_pos hq, if_pos hq2]
        · rw [saxEscapeList_eq_flatMap, replace_quot_flatMap]
          exact not_mem_flatMap_of_blocks '"' escCharQ escCharQ_not_mem_quot s.data
        · rw [saxEscapeList_eq_flatMap, replace_quot_flatMap]
          exact not_mem_flatMap_of_blocks '<' escCharQ escCharQ_not_mem_lt s.data
        · rw [saxEscapeList_eq_flatMap, replace_quot_flatMap]
          exact not_mem_flatMap_of_blocks '>' escCharQ escCharQ_not_mem_gt s.data
        · rw [saxEscapeList_eq_flatMap, replace_quot_flatMap]
          exact ampOk_flatMap escCharQ escCharQ_hf s.data
      · refine ⟨'\'', saxEscapeList s.data, .inr rfl, ?_, hq2, ?_, ?_, ?_⟩
        · show (quoteattrFun s).data = _
          unfold quoteattrFun
          rw [if_pos hq, if_neg hq2]
        · rw [saxEscapeList_eq_flatMap]
          exact not_mem_flatMap_of_blocks '<' escChar escChar_not_mem_lt s.data
        · rw [saxEscapeList_eq_flatMap]
          exact not_mem_flatMap_of_blocks '>' escChar escChar_not_mem_gt s.data
        · rw [saxEscapeList_eq_flatMap]
          exact ampOk_flatMap escChar escChar_hf s.data
    · refine ⟨'"', saxEscapeList s.data, .inl rfl, ?_, hq, ?_, ?_, ?_⟩
      · show (quoteattrFun s).data = _
        unfold quoteattrFun
        rw [if_neg hq]
      · rw [saxEscapeList_eq_flatMap]
        exact not_mem_flatMap_of_blocks '<' escChar escChar_not_mem_lt s.data
      · rw [saxEscapeList_eq_flatMap]
        exact not_mem_flatMap_of_blocks '>' escChar escChar_not_mem_gt s.data
      · rw [saxEscapeList_eq_flatMap]
        exact ampOk_flatMap escChar escChar_hf s.data

/-- C2: a checkbox renderer emits the `checked="checked"` keyword attribute
exactly when the live value is truthy, omits it entirely otherwise, and its
output never depends on the configured default value (the overridden
`__call__` never substitutes it, even for a null value). -/
theorem checkbox_checked_iff_truthy (attrs : Attrs) (name : String) (value : Option String)
    (rb nm : Bool) (label : Option String) (d1 d2 : Option String) (desc : String) :
    rendererCall ⟨.checkbox attrs, rb, nm, label, d1, desc⟩ name value =
      (if pyTruthy value then
        "<input " ++ renderAttrs (attrs ++ [("name", name), ("checked", "checked")]) ++ "/>"
       else
        "<input " ++ renderAttrs (attrs ++ [("name", name)]) ++ "/>") ∧
    rendererCall ⟨.checkbox attrs, rb, nm, label, d1, desc⟩ name value =
      rendererCall ⟨.checkbox attrs, rb, nm, label, d2, desc⟩ name value ∧
    rendererCall ⟨.checkbox attrs, rb, nm, label, d1, desc⟩ name none =
      rendererCall ⟨.checkbox attrs, rb, nm, label, none, desc⟩ name (some "") := by
  exact ⟨rfl, rfl, rfl⟩

/-- C4: every widget kind except Checkbox renders a null value with the
configured default (`pyOrEmpty default`, i.e. the default string when one
is set), renders an explicit empty string as the empty string rather than
the default, and renders the empty string whenever the resolved value is
still null or empty. -/
theorem widget_default_fallback (core : WidgetCore) (h : isCheckboxCore core = false)
    (rb nm : Bool) (label default : Option String) (desc : String) (name : String) :
    rendererCall ⟨core, rb, nm, label, default, desc⟩ name none =
      coreRender core name (pyOrEmpty default) ∧
    rendererCall ⟨core, rb, nm, label, default, desc⟩ name (some "") =
      coreRender core name "" ∧
    (default = none ∨ default = some "" →
      rendererCall ⟨core, rb, nm, label, default, desc⟩ name none =
        coreRender core name "") := by
  cases core with
  | checkbox attrs => simp [isCheckboxCore] at h
  | input attrs =>
    refine ⟨rfl, rfl, ?_⟩
    rintro (hd | hd) <;> subst hd <;> rfl
  | custom content =>
    refine ⟨rfl, rfl, ?_⟩
    rintro (hd | hd) <;> subst hd <;> rfl
  | textarea attrs =>
    refine ⟨rfl, rfl, ?_⟩
    rintro (hd | hd) <;> subst hd <;> rfl
  | radio options attrs sep =>
    refine ⟨rfl, rfl, ?_⟩
    rintro (hd | hd) <;> subst hd <;> rfl
  | select options attrs sep =>
    refine ⟨rfl, rfl, ?_⟩
    rintro (hd | hd) <;> subst hd <;> rfl

/-- C4 (witness): a concrete text input with default `"D"` rendered with a
null value uses `"D"`, and with an explicit empty value uses `""`. -/
theorem widget_default_fallback_witness :
    isCheckboxCore (.input [("type", "text")]) = false ∧
    rendererCall ⟨.input [("type", "text")], false, false, some "L", some "D", ""⟩ "f" none =
      coreRender (.input [("type", "text")]) "f" "D" ∧
    rendererCall ⟨.input [("type", "text")], false, false, some "L", some "D", ""⟩ "f" (some "") =
      coreRender (.input [("type", "text")]) "f" "" := by
  have h := widget_default_fallback (.input [("type", "text")]) (by decide)
    false false (some "L") (some "D") "" "f"
  exact ⟨by decide, h.1, h.2.1⟩

/-- C6: when the keys of the submitted values do not intersect the form's
field names, `smartRender` renders with every error suppressed; when some
submitted key is a field name it coincides with plain `render`. -/
theorem smartRender_first_view (t : FormTpls) (f : Form) (values errors : Attrs) :
    ((∀ kv ∈ values, kv.1 ∉ f.fields.map Prod.fst) →
      smartRender t f values errors = formRender t f values []) ∧
    ((∃ kv ∈ values, kv.1 ∈ f.fields.map Prod.fst) →
      smartRender t f values errors = formRender t f values errors) := by
  constructor
  · intro h
    unfold smartRender
    rw [if_neg]
    intro hc
    rcases List.any_eq_true.mp hc with ⟨kv, hkv, hfd⟩
    rcases List.any_eq_true.mp hfd with ⟨fd, hfdm, heq⟩
    exact h kv hkv (List.mem_map.mpr ⟨fd, hfdm, of_decide_eq_true heq⟩)
  · rintro ⟨kv, hkv, hmem⟩
    unfold smartRender
    rw [if_pos]
    rcases List.mem_map.mp hmem with ⟨fd, hfdm, heq⟩
    exact List.any_eq_true.mpr ⟨kv, hkv, List.any_eq_true.mpr ⟨fd, hfdm, decide_eq_true heq⟩⟩

/-- C6 (witness): on a form with fields `a`, `b`, an empty submission and
`errors = {a: "required"}`, smart rendering equals rendering with no
errors. -/
theorem smartRender_first_view_witness :
    smartRender baseFormTpls abForm [] [("a", "required")] =
      formRender baseFormTpls abForm [] [] := by
  exact (smartRender_first_view baseFormTpls abForm [] [("a", "required")]).1 (by simp)

/-- C7 (counterexample): the `htmlwidgets` RadioGroup and Select
constructors, which the claim covers, contain no empty-options check:
constructed with an empty option set they succeed — yielding a renderer
that stores the empty option set — and even render without failure (the
radio group renders the empty string, the select an option-less select
element). -/
theorem html_choice_widgets_accept_empty_options :
    htmlRadioInit (some "L") [] none none "\n" =
      ⟨.radio [] [("type", "radio")] "\n", false, false, some "L", none, ""⟩ ∧
    htmlSelectInit (some "L") (.fromList []) none none "\n" =
      ⟨.select (.fromList []) [] "\n", false, false, some "L", none, ""⟩ ∧
    rendererCall (htmlRadioInit (some "L") [] none none "\n") "f" (some "x") = "" ∧
    rendererCall (htmlSelectInit (some "L") (.fromList []) none none "\n") "f" (some "x") =
      "<select name=\"f\">\n\n</select>" := by
  refine ⟨by decide, by decide, by decide, by decide⟩

/-- C7 (amended): the `basicwidgets` RadioInput and Select constructions
raise exactly when given no options (`None` or an empty collection), with
the source's configuration-error message, and that is the only exceptional
case among the basicwidgets widget constructions; the `htmlwidgets`
RadioInput and Select constructors perform no such check — given an empty
option set they construct successfully and render without failure. -/
theorem choice_widget_empty_options_error (k : TransformerKind) (w : WidgetArgs) :
    (exceptIsError (mkCore k w) = true ↔
      ((k = .radioInput ∧ pyNotList w.options = true) ∨
       (k = .select ∧ pyNotSelectOptions w.selOptions = true))) ∧
    (k = .radioInput → pyNotList w.options = true →
      mkCore k w = .error "No options passed in creation of radio widget") ∧
    (k = .select → pyNotSelectOptions w.selOptions = true →
      mkCore k w = .error "No options provided for select widget") ∧
    (∀ (label default : Option String) (attrs : Option Attrs) (sep name : String)
      (value : Option String),
      rendererCall (htmlRadioInit label [] default attrs sep) name value = "") ∧
    (∀ (label default : Option String) (attrs : Option Attrs) (sep name : String)
      (value : Option String),
      rendererCall (htmlSelectInit label (.fromList []) default attrs sep) name value =
        "<select " ++ renderAttrs (dictUpdate [] (attrs.getD []) ++ [("name", name)]) ++
          ">\n" ++ "" ++ "\n</select>") := by
  refine ⟨?_, ?_, ?_, ?_, ?_⟩
  · cases k <;> simp [mkCore, exceptIsError]
    · by_cases h : pyNotList w.options <;> simp [h, exceptIsError]
    · by_cases h : pyNotSelectOptions w.selOptions <;> simp [h, exceptIsError]
  · rintro rfl h; simp [mkCore, h]
  · rintro rfl h; simp [mkCore, h]
  · intro label default attrs sep name value
    rfl
  · intro label default attrs sep name value
    rfl

/-- C7 (witness): constructing a basicwidgets radio widget with no options
fails with the configuration error, and constructing one with an option
list succeeds. -/
theorem choice_widget_empty_options_error_witness :
    mkCore .radioInput ⟨none, none, none, "\n", ""⟩ =
      .error "No options passed in creation of radio widget" ∧
    exceptIsError (mkCore .radioInput ⟨none, some ["a", "b"], none, "\n", ""⟩) = false := by
  constructor
  · exact (choice_widget_empty_options_error .radioInput ⟨none, none, none, "\n", ""⟩).2.1
      rfl (by decide)
  · decide

theorem dictLookup_dictSet_self (a : Attrs) (k v : String) :
    dictLookup k (dictSet a k v) = some v := by
  induction a with
  | nil => simp [dictSet, dictLookup]
  | cons p rest ih =>
    by_cases h : p.1 = k
    · simp [dictSet, dictLookup, h]
    · simp [dictSet, dictLookup, h, ih]

theorem dictSet_idem (a : Attrs) (k v : String) :
    dictSet (dictSet a k v) k v = dictSet a k v := by
  induction a with
  | nil => simp [dictSet]
  | cons p rest ih =>
    by_cases h : p.1 = k
    · simp [dictSet, h]
    · simp [dictSet, h, ih]

/-- C3 (counterexample): a form constructed with an explicit
`enctype=multipart/form-data` attribute and zero fields (in particular
zero multipart fields) still emits the enctype attribute in its rendered
output, because `render` emits every entry of `self.attrs`. -/
theorem enctype_emitted_with_zero_multipart_fields :
    encForm.fields = [] ∧
    dictLookup "enctype" (formRender baseFormTpls encForm [] []).2.attrs =
      some "multipart/form-data" ∧
    "enctype=\"multipart/form-data\"".data <:+: ((formRender baseFormTpls encForm [] []).1).data := by
  refine ⟨rfl, by decide, by decide⟩

/-- C3 (amended): provided the form's attribute dict does not already hold
an `enctype` entry (from construction or from an earlier render), the
attribute dict rendered into the form tag contains
`enctype=multipart/form-data` if and only if at least one field's renderer
has `needsMultipart`, regardless of the field's position. -/
theorem multipart_enctype_iff (t : FormTpls) (f : Form) (values errors : Attrs)
    (h : dictLookup "enctype" f.attrs = none) :
    dictLookup "enctype" (formRender t f values errors).2.attrs =
        some "multipart/form-data" ↔
      f.fields.any (fun p => p.2.needsMultipart) = true := by
  show dictLookup "enctype"
      (if f.fields.any (fun p => p.2.needsMultipart) then
        dictSet f.attrs "enctype" "multipart/form-data" else f.attrs) =
      some "multipart/form-data" ↔ _
  by_cases hmp : f.fields.any (fun p => p.2.needsMultipart)
  · simp [hmp, dictLookup_dictSet_self]
  · simp [hmp, h]

/-- C3 (witness): the one-file-field form has no `enctype` attribute at
construction and its render marks the attribute dict multipart. -/
theorem multipart_enctype_iff_witness :
    dictLookup "enctype" fileForm.attrs = none ∧
    dictLookup "enctype" (formRender baseFormTpls fileForm [] []).2.attrs =
      some "multipart/form-data" := by
  refine ⟨by decide, ?_⟩
  exact (multipart_enctype_iff baseFormTpls fileForm [] [] (by decide)).mpr (by decide)

/-- C8 (counterexample): rendering a form that holds a file field mutates
the form container itself: the post-render form differs from the
pre-render form, its attribute dict having gained the `enctype` entry. -/
theorem render_mutates_form_with_file_field :
    dictLookup "enctype" fileForm.attrs = none ∧
    (formRender baseFormTpls fileForm [] []).2 ≠ fileForm ∧
    dictLookup "enctype" (formRender baseFormTpls fileForm [] []).2.attrs =
      some "multipart/form-data" := by
  refine ⟨by decide, by decide, by decide⟩

/-- C8 (amended): `render` never changes the fields or the submit label,
and changes the attribute dict exactly by storing the `enctype` entry when
some renderer needs multipart (otherwise the form is unchanged); repeated
renders of the (possibly mutated) form with the same arguments return the
same string. -/
theorem render_mutates_only_enctype (t : FormTpls) (f : Form) (values errors : Attrs) :
    (formRender t f values errors).2.fields = f.fields ∧
    (formRender t f values errors).2.submitLabel = f.submitLabel ∧
    (formRender t f values errors).2.attrs =
      (if f.fields.any (fun p => p.2.needsMultipart) then
        dictSet f.attrs "enctype" "multipart/form-data"
       else f.attrs) ∧
    (formRender t (formRender t f values errors).2 values errors).1 =
      (formRender t f values errors).1 := by
  refine ⟨rfl, rfl, rfl, ?_⟩
  show (formRender t { f with attrs := _ } values errors).1 = _
  by_cases hmp : f.fields.any (fun p => p.2.needsMultipart)
  · simp [formRender, hmp, dictSet_idem]
  · simp [formRender, hmp]

/-- C9 (counterexample): a renderer with a null label but `renderBare`
unset (exactly what `basicwidgets.TextInput` produces for a `None` label)
is rendered by the TableForm field template for *normal* mode — three
table cells with an empty label cell — not by the bare-field template, so
"bare iff null label" fails. -/
theorem null_label_without_renderBare_uses_normal_template :
    bareNoneR.label = none ∧ bareNoneR.renderBare = false ∧
    renderFieldR tableFormTpls bareNoneR "f" none none =
      "<tr><td></td><td><input type=\"text\" name=\"f\" value=\"\"/></td><td></td></tr>" ∧
    renderFieldR tableFormTpls bareNoneR "f" none none ≠
      "<tr><td><input type=\"text\" name=\"f\" value=\"\"/></td></tr>" := by
  refine ⟨rfl, rfl, by decide, by decide⟩

/-- C9 (amended): `BaseForm.renderField` (here on the TableForm templates)
chooses the bare-field template if and only if the renderer's `renderBare`
flag is set; a null label only empties the label slot of the normal-field
template.  (`RequirementsForm.renderField` instead branches on the label
being null.) -/
theorem renderField_template_by_renderBare (r : Renderer) (name : String)
    (value error : Option String) :
    renderFieldR tableFormTpls r name value error =
      (if r.renderBare then
        pyStrip ("<tr><td>" ++ (rendererCall r name value ++ "</td></tr>"))
       else
        pyStrip ("<tr><td>" ++
          ((match r.label with
            | some l => templateSubst [("label", l)] tableFormTpls.labelTpl
            | none => "") ++
           ("</td><td>" ++
            (rendererCall r name value ++
             ("</td><td>" ++
              ((match error with
                | some e =>
                  if e.isEmpty then "" else templateSubst [("error", e)] tableFormTpls.errorTpl
                | none => "") ++ "</td></tr>"))))))) := by
  unfold renderFieldR
  cases hrb : r.renderBare
  · rfl
  · rfl

/-- C10: `TableForm.__init__` updates the class-level `tableAttrs` dict in
place with the supplied table attributes, and a `TableForm` constructed
afterwards (even with no table attributes of its own) observes the update:
its specialised form template embeds the shared attribute rendering. -/
theorem tableForm_tableAttrs_shared (cls : Attrs) (m a : String) (fa : Option Attrs)
    (ta : Attrs) (sl m' a' : String) (fa' : Option Attrs) (sl' : String) :
    (tableFormInit cls m a fa (some ta) sl).2 = dictUpdate cls ta ∧
    (tableFormInit ((tableFormInit cls m a fa (some ta) sl).2) m' a' fa' none sl').2 =
      dictUpdate cls ta ∧
    (tableFormInit ((tableFormInit cls m a fa (some ta) sl).2) m' a' fa' none sl').1.2 =
      "<form $formAttributes>\n<table " ++
        (renderAttrs (dictUpdate cls ta) ++ ">\n\n$fields\n\n</table>\n</form>") := by
  exact ⟨rfl, rfl, rfl⟩

/-- C1 (counterexample): the `htmlwidgets.TextInput` transformer attaches
the renderer to the caller's validator object itself and returns that very
object: after the call the original heap cell (address 0) has gained a
renderer attribute, contradicting "the caller's original validator
instance is left unmodified". -/
theorem html_textinput_mutates_original :
    (htmlTextInput htmlHeap0 0 (some "Name") none none).1 = 0 ∧
    (htmlHeap0.getD 0 ⟨0, none⟩).renderer = none ∧
    ((htmlTextInput htmlHeap0 0 (some "Name") none none).2.getD 0 ⟨0, none⟩).renderer ≠ none ∧
    (htmlTextInput htmlHeap0 0 (some "Name") none none).2 ≠ htmlHeap0 := by
  refine ⟨rfl, rfl, by decide, by decide⟩

/-- C1 (amended): every `basicwidgets` transformer kind, when it returns
at all, returns a freshly allocated copy of the supplied validator with
the renderer attached, and the caller's original heap cell is bitwise
unchanged; the `htmlwidgets` transformer functions instead mutate the
supplied validator in place and return it (see the counterexample). -/
theorem transformer_returns_fresh_copy (k : TransformerKind) (h : List VObj) (a : Nat)
    (label : Option String) (desc : String) (default : Option String) (w : WidgetArgs)
    (ha : a < h.length) (waddr : Nat) (h' : List VObj)
    (hok : transformerCall k h (some a) label desc default w = .ok (waddr, h')) :
    waddr = h.length ∧ a ≠ waddr ∧ h'[a]? = h[a]? ∧
    (∃ core, mkCore k w = .ok core ∧
      h'[waddr]? = some ⟨(h.getD a ⟨0, none⟩).payload,
        some ⟨core, transformerRenderBare k, transformerNeedsMultipart k,
          label, default, desc⟩⟩) := by
  unfold transformerCall at hok
  cases hmk : mkCore k w with
  | error e => rw [hmk] at hok; exact absurd hok (by simp)
  | ok core =>
    rw [hmk] at hok
    simp only [Except.ok.injEq, Prod.mk.injEq] at hok
    obtain ⟨hw, hh⟩ := hok
    subst hw
    subst hh
    have hane : a ≠ h.length := Nat.ne_of_lt ha
    refine ⟨rfl, hane, ?_, core, rfl, ?_⟩
    · unfold setRenderer
      rw [List.getElem?_concat_length]
      rw [List.getElem?_set_ne (Ne.symm hane)]
      exact List.getElem?_append_left ha
    · unfold setRenderer
      rw [List.getElem?_concat_length]
      have hlen : h.length < (h ++ [h.getD a ⟨0, none⟩]).length := by
        simp
      rw [List.getElem?_set_self hlen]

/-- C1 (witness): the amended theorem applied to a one-cell heap and the
Custom transformer: the copy lives at the fresh address 1, the original
cell at address 0 is unchanged. -/
theorem transformer_returns_fresh_copy_witness :
    0 < ([⟨5, none⟩] : List VObj).length ∧
    transformerCall .custom [⟨5, none⟩] (some 0) (some "L") "" none
      ⟨none, none, none, "\n", "$name"⟩ =
      .ok (1, [⟨5, none⟩, ⟨5, some ⟨.custom "$name", false, false, some "L", none, ""⟩⟩]) ∧
    ([⟨5, none⟩, ⟨5, some ⟨.custom "$name", false, false, some "L", none, ""⟩⟩] :
      List VObj)[0]? = ([⟨5, none⟩] : List VObj)[0]? := by
  have hfc := transformer_returns_fresh_copy .custom [⟨5, none⟩] 0 (some "L") "" none
    ⟨none, none, none, "\n", "$name"⟩ (by decide) 1
    [⟨5, none⟩, ⟨5, some ⟨.custom "$name", false, false, some "L", none, ""⟩⟩] (by rfl)
  exact ⟨by decide, by rfl, hfc.2.2.1⟩

end Formulaic

